import Mathlib

/-!
Verification development for the juanPlot module (wheelBuild/juanPlot/__init__.py):
plotting wrappers for bar charts and heatmaps of gene-expression rows from
published retinal RNA-seq datasets.

The embedding follows the Python source.  A caller-supplied pandas table is
modelled as a `Table`: a declared column count, the contents of the symbol
column, and one list of rationals per row.  Positional slicing with
`iloc[i, a:b]` follows Python slice semantics: the column range is clipped to
the available columns and never faults, while a positional row index out of
range raises IndexError.  Palettes (Python dicts) are association lists; a
key lookup that misses raises KeyError (modelled as `PlotError.missingKey`).
The matplotlib bar call raises a ValueError when the position sequence and
the height sequence have different lengths (modelled as
`PlotError.shapeMismatch`).  Each dataset wrapper differs from the others
only in its constant tables; those constants are transcribed verbatim into
one profile value per wrapper, and the shared wrapper body is the pair of
functions `resolveBar` / `resolveHeatmap`.
-/

abbrev Palette := List (String × String)

/-- Python slice semantics for `row[a:b]` with nonnegative bounds: the range is
clipped to the list, no fault occurs. -/
def pySlice (l : List ℚ) (a b : ℕ) : List ℚ := (l.take b).drop a

/-- A pandas dataframe as the wrappers use it: a declared number of columns,
the 'symbol' column, and the numeric rows. -/
structure Table where
  nCols : ℕ
  symbols : List String
  rows : List (List ℚ)
deriving DecidableEq

/-- Failures the Python wrappers can raise before or at the draw call:
IndexError from a positional row index, KeyError from a palette lookup,
ValueError from matplotlib when positions and heights disagree in length. -/
inductive PlotError where
  | rowIndexOOB
  | missingKey (k : String)
  | shapeMismatch
deriving DecidableEq

instance {ε α : Type} [DecidableEq ε] [DecidableEq α] : DecidableEq (Except ε α) := fun x y =>
  match x, y with
  | Except.error a, Except.error b =>
    if h : a = b then isTrue (by rw [h]) else isFalse (by intro hh; cases hh; exact h rfl)
  | Except.ok a, Except.ok b =>
    if h : a = b then isTrue (by rw [h]) else isFalse (by intro hh; cases hh; exact h rfl)
  | Except.error _, Except.ok _ => isFalse (by intro hh; cases hh)
  | Except.ok _, Except.error _ => isFalse (by intro hh; cases hh)

/-- Python truthiness test on the palette argument, from the source pattern
`if not pC: pC = <default>`: both None and an empty dict fall back to the
built-in default palette. -/
def effectivePalette : Option Palette → Palette → Palette
  | none, dflt => dflt
  | some p, dflt => if p.isEmpty then dflt else p

/-- Building the per-column (or per-group) color sequence by looking every key
up in the palette, in source order; the first missing key raises KeyError. -/
def buildColors (p : Palette) : List String → Except PlotError (List String)
  | [] => Except.ok []
  | k :: ks =>
    match List.lookup k p with
    | none => Except.error (PlotError.missingKey k)
    | some c =>
      match buildColors p ks with
      | Except.error e => Except.error e
      | Except.ok cs => Except.ok (c :: cs)

/-- Constant tables of one bar-plot wrapper: bar positions (the array n),
slice offsets (h_start, h_end, and the pctPlot delta where the wrapper has
one), the palette keys of the per-bar colors, the built-in default palette,
and the x-axis ticks, tick labels and y-axis label set by the paired format
function. -/
structure BarProfile where
  positions : List ℚ
  hStart0 : ℕ
  hEnd0 : ℕ
  pctDelta : ℕ
  colorKeys : List String
  defaultPalette : Palette
  xTicks : List ℚ
  xTickLabels : List String
  yLabel0 : String
  yLabelPct : String
deriving DecidableEq

/-- The resolved rendering input of one bar-plot call. -/
structure BarSpec where
  positions : List ℚ
  values : List ℚ
  colors : List String
  xTicks : List ℚ
  xTickLabels : List String
  yLabel : String
  title : String
deriving DecidableEq

/-- Shared body of every plotBars-style wrapper: read row 0 (IndexError when
the table has no rows), clip-slice the configured column range, resolve the
palette, build the per-bar colors (KeyError on a missing key), then call
ax.bar, which raises when positions and heights differ in length. -/
def resolveBar (prof : BarProfile) (t : Table) (g : String)
    (pC : Option Palette) (pct : Bool) : Except PlotError BarSpec :=
  match t.rows with
  | [] => Except.error PlotError.rowIndexOOB
  | r :: _ =>
    let delta := if pct then prof.pctDelta else 0
    let h := pySlice r (prof.hStart0 + delta) (prof.hEnd0 + delta)
    match buildColors (effectivePalette pC prof.defaultPalette) prof.colorKeys with
    | Except.error e => Except.error e
    | Except.ok barColors =>
      if prof.positions.length = h.length then
        Except.ok { positions := prof.positions, values := h, colors := barColors,
                    xTicks := prof.xTicks, xTickLabels := prof.xTickLabels,
                    yLabel := if pct then prof.yLabelPct else prof.yLabel0, title := g }
      else Except.error PlotError.shapeMismatch

/-- Default photoreceptor palette shared by plotBars, plotBars_Ogawa2021,
plotBars_Hoang2020, plotBars_Sun2018 and the matching heatmap wrappers. -/
def pC_photoreceptor : Palette :=
  [("r", "#747474"), ("u", "#B540B7"), ("s", "#4669F2"), ("m", "#04CD22"), ("l", "#CC2C2A"),
   ("m4", "#cdcd04"), ("onBC", "#ccf2ff"), ("offBC", "#663d00")]

/-- Constants of plotBars (Angueyra et al. 2021 dataset, 30 columns): n is
arange(1,7) ++ 7+arange(1,6) ++ 13+arange(1,7) ++ 20+arange(1,8) ++
28+arange(1,7); slice iloc[0,7:37]; colors repeat r,u,s,m,l 6,5,6,7,6
times; formatBarPlot sets the ticks, labels and FPKM y label. -/
def plotBars_profile : BarProfile :=
  { positions := [1, 2, 3, 4, 5, 6, 8, 9, 10, 11, 12, 14, 15, 16, 17, 18, 19,
                  21, 22, 23, 24, 25, 26, 27, 29, 30, 31, 32, 33, 34],
    hStart0 := 7, hEnd0 := 37, pctDelta := 0,
    colorKeys := ["r", "r", "r", "r", "r", "r",
                  "u", "u", "u", "u", "u",
                  "s", "s", "s", "s", "s", "s",
                  "m", "m", "m", "m", "m", "m", "m",
                  "l", "l", "l", "l", "l", "l"],
    defaultPalette := pC_photoreceptor,
    xTicks := [3.5, 10, 16.5, 24, 31.5],
    xTickLabels := ["Rods", "UV", "S", "M", "L"],
    yLabel0 := "FPKM", yLabelPct := "FPKM" }

/-- Constants of plotBars_Ogawa2021: n = arange(1,9); slice iloc[0,2:10] with
delta 9 under pctPlot; one color key per bar. -/
def plotBars_Ogawa2021_profile : BarProfile :=
  { positions := [1, 2, 3, 4, 5, 6, 7, 8],
    hStart0 := 2, hEnd0 := 10, pctDelta := 9,
    colorKeys := ["r", "u", "s", "m", "l", "m4", "onBC", "offBC"],
    defaultPalette := pC_photoreceptor,
    xTicks := [1, 2, 3, 4, 5, 6, 7, 8],
    xTickLabels := ["Rods", "UV", "S", "M", "L", "M4", "BC$_{on}$", "BC$_{off}$"],
    yLabel0 := "avg. counts", yLabelPct := "% expressing" }

/-- Constants of plotBars_Hoang2020: n = arange(1,8); slice iloc[0,2:9] with
delta 8 under pctPlot. -/
def plotBars_Hoang2020_profile : BarProfile :=
  { positions := [1, 2, 3, 4, 5, 6, 7],
    hStart0 := 2, hEnd0 := 9, pctDelta := 8,
    colorKeys := ["r", "u", "s", "m", "m", "m4", "l"],
    defaultPalette := pC_photoreceptor,
    xTicks := [1, 2, 3, 4, 5, 6, 7],
    xTickLabels := ["Rods", "UV", "S", "M1", "M3", "M4", "L"],
    yLabel0 := "avg. counts", yLabelPct := "% expressing" }

/-- Constants of plotBars_Sun2018: n = arange(1,5) ++ 5+arange(1,5) (eight
positions), slice iloc[0,7:16] (nine columns), eight color keys. -/
def plotBars_Sun2018_profile : BarProfile :=
  { positions := [1, 2, 3, 4, 6, 7, 8, 9],
    hStart0 := 7, hEnd0 := 16, pctDelta := 0,
    colorKeys := ["r", "r", "r", "r", "m4", "m4", "m4", "m4"],
    defaultPalette := pC_photoreceptor,
    xTicks := [2.5, 7.5],
    xTickLabels := ["Rods", "notRods"],
    yLabel0 := "cpm", yLabelPct := "cpm" }

/-- Translation of np.arange(1, n+1): the positions 1, 2, ..., n. -/
def arange1 (n : ℕ) : List ℚ := (List.range n).map fun i => ((i : ℚ) + 1)

/-- Default palette of plotBars_Hoang2020_Ret (the bar variant; its BC_adult
entry differs from the heatmap variant). -/
def pC_Hoang2020_Ret_bar : Palette :=
  [("RPC", "#DADADA"), ("PRPC", "#dfdac8"), ("Cones_larval", "#dcc360"), ("Cones_adult", "#ffd429"),
   ("Rods", "#7d7d7d"), ("HC", "#FC7715"), ("BC_larval", "#ccf2ff"), ("BC_adult", "#1B98C3"),
   ("AC_larval", "#3DF591"), ("ACgaba", "#3DF5C3"), ("ACgly", "#56F53D"), ("RGC_larval", "#F53D59"),
   ("RGC_adult", "#BB0622"), ("MGi", "#EA9D81"), ("MG1", "#A2644E"), ("MG2", "#7E4835"), ("MG3", "#613728")]

/-- Color keys of the Hoang2020_Ret wrappers (bar and heatmap agree). -/
def keys_Hoang2020_Ret : List String :=
  ["RPC", "PRPC", "Cones_larval", "Cones_adult", "Rods", "HC", "BC_larval", "BC_adult",
   "AC_larval", "ACgaba", "ACgly", "RGC_larval", "RGC_adult", "MGi", "MG1", "MG2", "MG3"]

/-- Group labels of the Hoang2020_Ret wrappers (bar tick labels and heatmap
group labels agree). -/
def labels_Hoang2020_Ret : List String :=
  ["RPC", "PRPC", "C$_{larval}$", "C$_{adult}$", "R$_{ods}$", "HC", "BC$_{larval}$", "BC$_{adult}$",
   "AC$_{larval}$", "AC$_{GABA}$", "AC$_{Gly}$", "RGC$_{larval}$", "RGC$_{adult}$", "MGi", "MG1", "MG2", "MG3"]

/-- Constants of plotBars_Hoang2020_Ret: n = arange(1,18); slice iloc[0,2:19]
with delta 19 under pctPlot. -/
def plotBars_Hoang2020_Ret_profile : BarProfile :=
  { positions := arange1 17,
    hStart0 := 2, hEnd0 := 19, pctDelta := 19,
    colorKeys := keys_Hoang2020_Ret,
    defaultPalette := pC_Hoang2020_Ret_bar,
    xTicks := arange1 17,
    xTickLabels := labels_Hoang2020_Ret,
    yLabel0 := "avg. counts", yLabelPct := "% expressing" }

/-- Default palette of the Hoang2020_PhotoDev wrappers. -/
def pC_Hoang2020_PhotoDev : Palette :=
  [("RPC", "#DADADA"), ("PRP", "#dfdac8"), ("Cle", "#dacd9a"), ("Clm", "#dcc360"),
   ("Cll", "#cca819"), ("C", "#ffd429"), ("R", "#7d7d7d")]

/-- Tick labels set by formatBarPlot_Hoang2020_PhotoDev (also used by the
withcontaminatedlarvalrods bar wrapper, which calls this same formatter). -/
def labels_Hoang2020_PhotoDev : List String :=
  ["RPC", "PRPC", "Cone$_{larval-early}$", "Cone$_{larval-mid}$", "Cone$_{larval-late}$", "Cone", "Rod"]

/-- Constants of plotBars_Hoang2020_PhotoDev: n = arange(1,8); slice
iloc[0,2:9] with delta 8 under pctPlot. -/
def plotBars_Hoang2020_PhotoDev_profile : BarProfile :=
  { positions := arange1 7,
    hStart0 := 2, hEnd0 := 9, pctDelta := 8,
    colorKeys := ["RPC", "PRP", "Cle", "Clm", "Cll", "C", "R"],
    defaultPalette := pC_Hoang2020_PhotoDev,
    xTicks := arange1 7,
    xTickLabels := labels_Hoang2020_PhotoDev,
    yLabel0 := "avg. counts", yLabelPct := "% expressing" }

/-- Default palette of the withcontaminatedlarvalrods wrappers. -/
def pC_Hoang2020_contam : Palette :=
  [("RPC", "#DADADA"), ("PRP", "#dfdac8"), ("Cle", "#dacd9a"), ("Clm", "#dcc360"),
   ("Cll", "#cca819"), ("C", "#ffd429"), ("Rll", "#a3a3a3"), ("R", "#7d7d7d")]

/-- Constants of plotBars_Hoang2020_PhotoDev_withcontaminatedlarvalrods:
n = arange(1,9); slice iloc[0,2:10] with delta 9; this wrapper calls
formatBarPlot_Hoang2020_PhotoDev, so its ticks and tick labels are the
seven PhotoDev ones. -/
def plotBars_Hoang2020_PhotoDev_withcontaminatedlarvalrods_profile : BarProfile :=
  { positions := arange1 8,
    hStart0 := 2, hEnd0 := 10, pctDelta := 9,
    colorKeys := ["RPC", "PRP", "Cle", "Clm", "Cll", "C", "Rll", "R"],
    defaultPalette := pC_Hoang2020_contam,
    xTicks := arange1 7,
    xTickLabels := labels_Hoang2020_PhotoDev,
    yLabel0 := "avg. counts", yLabelPct := "% expressing" }

/-- Default palette of the Xu2020_RetDev wrappers (bar and heatmap blocks are
identical in the source). -/
def pC_Xu2020_RetDev : Palette :=
  [("RPC24h_prim", "#E9E9E9"), ("RPC24h", "#D2D2D2"), ("RPC24h_D", "#D2B6AF"), ("RPC24h_V", "#AFAFD2"),
   ("RPC24h_T", "#AFD2B0"), ("RPC24h_N", "#D2D1AF"), ("RPC24h_neuro", "#F5E5E8"), ("RPC36h_prim", "#E9E9E9"),
   ("RPC36h", "#D2D2D2"), ("RPC36h_D", "#D2B6AF"), ("RPC36h_V", "#AFAFD2"), ("RPC36h_T", "#AFD2B0"),
   ("RPC36h_N", "#D2D1AF"), ("RPC36h_hc", "#C5B39D"), ("RPC36h_neuro", "#F5E5E8"), ("RPC48h_prim", "#E9E9E9"),
   ("RPC48h", "#D2D2D2"), ("RPC48h_neuro", "#F5E5E8"), ("RPC48h_neuroMix", "#F5E5E8"), ("RPC48h_rgc", "#EA9D81"),
   ("RPC48h_MG", "#F5CCD2"), ("PRPC48h", "#dfdac8"), ("Photo48h", "#dacd9a"), ("HC48h", "#FCCAA5"),
   ("BC48h", "#7DAAAF"), ("BC48h_on", "#8398B1"), ("BC48h_off", "#B16D8A"), ("AC48h", "#95F5C1"),
   ("AC48h_gaba", "#91F5DA"), ("AC48h_sac", "#78AD93"), ("RGC48h", "#F53D59"), ("RPC72h_prim", "#E9E9E9"),
   ("RPC72h_neuro", "#F5E5E8"), ("RPC72h_bc", "#CCF2FF"), ("RPC72h_rgc", "#F5CCD2"), ("PRPC72h", "#DFDAC8"),
   ("Rod72h_early", "#A3A3A3"), ("Rod72h", "#7D7D7D"), ("Cone72h_early", "#DACD9A"), ("Cone72h_earlyL", "#D69F9E"),
   ("Cone72h", "#DCC360"), ("Cone72h_UV", "#B778B9"), ("Cone72h_S", "#7183CC"), ("Cone72h_M", "#57CB69"),
   ("Cone72h_L", "#C67271"), ("Cone72h_lateL", "#CE524F"), ("HC72h_early", "#FCCBA8"), ("HC72h", "#FCA668"),
   ("HC72h_H1", "#C59965"), ("HC72h_H2H3", "#F7909C"), ("BC72h_on", "#8398B1"), ("AC72h", "#3DF591"),
   ("AC72h_gly", "#91F5DA"), ("AC72h_gaba", "#95F5C1"), ("AC72h_sac", "#78AD93"), ("RGC72h", "#F53D59"),
   ("MG72h", "#EA9D81"), ("RPC336h_prim", "#E9E9E9"), ("RPC336h_neuro", "#F5E5E8"), ("RPC336h_bc", "#CCF2FF"),
   ("RPC336h_ac", "#B5F5D2"), ("RPC336h_rgc", "#F5CCD2"), ("PRPC336h", "#DFDAC8"), ("Rod336h", "#7D7D7D"),
   ("Cone336h", "#FFD429"), ("Cone336h_U", "#B778B9"), ("Cone336h_S", "#7183CC"), ("Cone336h_M", "#57CB69"),
   ("Cone336h_L", "#C67271"), ("Cone336h_lateL", "#CE524F"), ("HC336h", "#FCA668"), ("BC336h_on", "#8398B1"),
   ("BC336h_off", "#B16D8A"), ("AC336h_gaba", "#3DF5C3"), ("AC336h_gly", "#56F53D"), ("AC336h_ngng", "#89AC25"),
   ("AC336h_sac", "#78AD93"), ("AC336h_dac", "#A4D1D8"), ("RGC336h", "#F53D59"), ("MG336h", "#EA9D81")]

/-- Color keys of the Xu2020_RetDev wrappers; the bar tick labels and the
heatmap group labels are these same eighty strings. -/
def keys_Xu2020_RetDev : List String :=
  ["RPC24h_prim", "RPC24h", "RPC24h_D", "RPC24h_V", "RPC24h_T", "RPC24h_N", "RPC24h_neuro", "RPC36h_prim",
   "RPC36h", "RPC36h_D", "RPC36h_V", "RPC36h_T", "RPC36h_N", "RPC36h_hc", "RPC36h_neuro", "RPC48h_prim",
   "RPC48h", "RPC48h_neuro", "RPC48h_neuroMix", "RPC48h_rgc", "RPC48h_MG", "PRPC48h", "Photo48h", "HC48h",
   "BC48h", "BC48h_on", "BC48h_off", "AC48h", "AC48h_gaba", "AC48h_sac", "RGC48h", "RPC72h_prim",
   "RPC72h_neuro", "RPC72h_bc", "RPC72h_rgc", "PRPC72h", "Rod72h_early", "Rod72h", "Cone72h_early",
   "Cone72h_earlyL", "Cone72h", "Cone72h_UV", "Cone72h_S", "Cone72h_M", "Cone72h_L", "Cone72h_lateL",
   "HC72h_early", "HC72h", "HC72h_H1", "HC72h_H2H3", "BC72h_on", "AC72h", "AC72h_gly", "AC72h_gaba",
   "AC72h_sac", "RGC72h", "MG72h", "RPC336h_prim", "RPC336h_neuro", "RPC336h_bc", "RPC336h_ac", "RPC336h_rgc",
   "PRPC336h", "Rod336h", "Cone336h", "Cone336h_U", "Cone336h_S", "Cone336h_M", "Cone336h_L", "Cone336h_lateL",
   "HC336h", "BC336h_on", "BC336h_off", "AC336h_gaba", "AC336h_gly", "AC336h_ngng", "AC336h_sac", "AC336h_dac",
   "RGC336h", "MG336h"]

/-- Constants of plotBars_Xu2020_RetDev: n = arange(1,81); slice iloc[0,2:82]
with delta 82 under pctPlot. -/
def plotBars_Xu2020_RetDev_profile : BarProfile :=
  { positions := arange1 80,
    hStart0 := 2, hEnd0 := 82, pctDelta := 82,
    colorKeys := keys_Xu2020_RetDev,
    defaultPalette := pC_Xu2020_RetDev,
    xTicks := arange1 80,
    xTickLabels := keys_Xu2020_RetDev,
    yLabel0 := "avg. counts", yLabelPct := "% expressing" }

/-- Default palette of the Nerli2022 wrappers. -/
def pC_Nerli2022 : Palette :=
  [("RPC", "#DADADA"), ("PR", "#dcc360"), ("HC_AC", "#3DF591"), ("RGC", "#F53D59")]

/-- Constants of plotBars_Nerli2022: n = arange(0,5) ++ 4.5+arange(1,6) ++
10+arange(1,6) ++ 15.5+arange(1,6); slice iloc[0,1:21]. -/
def plotBars_Nerli2022_profile : BarProfile :=
  { positions := [0, 1, 2, 3, 4, 5.5, 6.5, 7.5, 8.5, 9.5, 11, 12, 13, 14, 15,
                  16.5, 17.5, 18.5, 19.5, 20.5],
    hStart0 := 1, hEnd0 := 21, pctDelta := 0,
    colorKeys := ["RPC", "RPC", "RPC", "RPC", "RPC",
                  "PR", "PR", "PR", "PR", "PR",
                  "HC_AC", "HC_AC", "HC_AC", "HC_AC", "HC_AC",
                  "RGC", "RGC", "RGC", "RGC", "RGC"],
    defaultPalette := pC_Nerli2022,
    xTicks := [2, 7.5, 13, 18.5],
    xTickLabels := ["RPC", "Photo", "HC/AC", "RGC"],
    yLabel0 := "counts (norm.)", yLabelPct := "counts (norm.)" }

/-- Default palette of the Yoshimatsu2020 wrappers. -/
def pC_Yoshimatsu2020 : Palette := [("u", "#B540B7"), ("u2", "#B789A7")]

/-- Constants of plotBars_Yoshimatsu2020: n = arange(1,5) ++ 5+arange(1,5);
slice iloc[0,1:9]. -/
def plotBars_Yoshimatsu2020_profile : BarProfile :=
  { positions := [1, 2, 3, 4, 6, 7, 8, 9],
    hStart0 := 1, hEnd0 := 9, pctDelta := 0,
    colorKeys := ["u2", "u2", "u2", "u2", "u", "u", "u", "u"],
    defaultPalette := pC_Yoshimatsu2020,
    xTicks := [2.5, 7.5],
    xTickLabels := ["UV$_{non-sz}$", "UV$_{sz}$"],
    yLabel0 := "cpm", yLabelPct := "cpm" }

/-- All ten bar-plot wrapper profiles, in source order of the datasets. -/
def barProfilesAll : List BarProfile :=
  [plotBars_profile, plotBars_Ogawa2021_profile, plotBars_Hoang2020_profile, plotBars_Sun2018_profile,
   plotBars_Nerli2022_profile, plotBars_Yoshimatsu2020_profile, plotBars_Hoang2020_Ret_profile,
   plotBars_Hoang2020_PhotoDev_profile, plotBars_Hoang2020_PhotoDev_withcontaminatedlarvalrods_profile,
   plotBars_Xu2020_RetDev_profile]

/-- The bar wrappers named after their source functions. -/
def plotBars (barData : Table) (geneSymbol : String) (pC : Option Palette) :
    Except PlotError BarSpec :=
  resolveBar plotBars_profile barData geneSymbol pC false

def plotBars_Ogawa2021 (barData : Table) (geneSymbol : String) (pC : Option Palette)
    (pctPlot : Bool) : Except PlotError BarSpec :=
  resolveBar plotBars_Ogawa2021_profile barData geneSymbol pC pctPlot

def plotBars_Hoang2020 (barData : Table) (geneSymbol : String) (pC : Option Palette)
    (pctPlot : Bool) : Except PlotError BarSpec :=
  resolveBar plotBars_Hoang2020_profile barData geneSymbol pC pctPlot

def plotBars_Sun2018 (barData : Table) (geneSymbol : String) (pC : Option Palette) :
    Except PlotError BarSpec :=
  resolveBar plotBars_Sun2018_profile barData geneSymbol pC false

/-- Maximum of a row, as pandas Series.max computes it on a nonempty row. -/
def rowMaxQ : List ℚ → ℚ
  | [] => 0
  | x :: xs => List.foldl max x xs

/-- Row-wise max-normalization, from the source expression
`apply(lambda x: x/x.max(), axis=1)` on the sliced block: every entry of the
row is divided by the row's own maximum. -/
def normalizeRow (l : List ℚ) : List ℚ := l.map fun v => v / rowMaxQ l

/-- Constant tables of one heatmap wrapper: slice offsets, group sizes
(groupsN), the palette keys of the group colors, group labels, the built-in
default palette, and the four colorbar label constants the wrapper can
produce (raw or pctPlot, each with and without norm).  Wrappers without a
pctPlot argument repeat their only labels in the pct fields; only pct=false
is ever used for them. -/
structure HeatProfile where
  hStart0 : ℕ
  hEnd0 : ℕ
  pctDelta : ℕ
  groupsN : List ℕ
  groupKeys : List String
  groupsLabels : List String
  defaultPalette : Palette
  cbarNoPct : String
  cbarPct : String
  cbarNormNoPct : String
  cbarNormPct : String
deriving DecidableEq

/-- The resolved rendering input of one heatmap call, as handed to and
completed by heatmap_general. -/
structure HeatSpec where
  data : List (List ℚ)
  nCols : ℕ
  rowLabels : List String
  groupsN : List ℕ
  groupsColors : List String
  groupsLabels : List String
  cbarlabel : String
deriving DecidableEq

/-- Column offset shift selected by the pctPlot flag. -/
def heatDelta (prof : HeatProfile) (pct : Bool) : ℕ := if pct then prof.pctDelta else 0

/-- The 2D data block of a heatmap wrapper: every row clipped to the
configured column range, then row-normalized when norm is set. -/
def heatData (prof : HeatProfile) (t : Table) (pct norm : Bool) : List (List ℚ) :=
  if norm then
    t.rows.map fun r =>
      normalizeRow (pySlice r (prof.hStart0 + heatDelta prof pct) (prof.hEnd0 + heatDelta prof pct))
  else
    t.rows.map fun r =>
      pySlice r (prof.hStart0 + heatDelta prof pct) (prof.hEnd0 + heatDelta prof pct)

/-- Colorbar label chosen by the wrapper before calling heatmap_general. -/
def heatCbarLabel (prof : HeatProfile) (pct norm : Bool) : String :=
  if norm then (if pct then prof.cbarNormPct else prof.cbarNormNoPct)
  else (if pct then prof.cbarPct else prof.cbarNoPct)

/-- Shared body of every heatmap wrapper followed by heatmap_general: slice
(and optionally normalize) the block, resolve the palette, build the group
colors (KeyError on a missing key, before any drawing), then in
heatmap_general substitute the 2-row all-ones "not found" placeholder when
the block has no rows, and draw. -/
def resolveHeatmap (prof : HeatProfile) (t : Table) (pC : Option Palette)
    (pct norm : Bool) : Except PlotError HeatSpec :=
  match buildColors (effectivePalette pC prof.defaultPalette) prof.groupKeys with
  | Except.error e => Except.error e
  | Except.ok gcs =>
    let width := min (prof.hEnd0 + heatDelta prof pct) t.nCols - (prof.hStart0 + heatDelta prof pct)
    if (heatData prof t pct norm).length = 0 then
      Except.ok { data := List.replicate 2 (List.replicate width 1), nCols := width,
                  rowLabels := ["not found", "not found"], groupsN := prof.groupsN,
                  groupsColors := gcs, groupsLabels := prof.groupsLabels,
                  cbarlabel := heatCbarLabel prof pct norm }
    else
      Except.ok { data := heatData prof t pct norm, nCols := width,
                  rowLabels := t.symbols, groupsN := prof.groupsN,
                  groupsColors := gcs, groupsLabels := prof.groupsLabels,
                  cbarlabel := heatCbarLabel prof pct norm }

/-- Constants of heatmap (Angueyra et al. 2021): slice iloc[0:,7:37], groupsN
[6,5,6,7,6], labels FPKM and norm. FPKM. -/
def heatmap_profile : HeatProfile :=
  { hStart0 := 7, hEnd0 := 37, pctDelta := 0,
    groupsN := [6, 5, 6, 7, 6],
    groupKeys := ["r", "u", "s", "m", "l"],
    groupsLabels := ["Rods", "UV", "S", "M", "L"],
    defaultPalette := pC_photoreceptor,
    cbarNoPct := "FPKM", cbarPct := "FPKM",
    cbarNormNoPct := "norm. FPKM", cbarNormPct := "norm. FPKM" }

/-- Constants of heatmap_Ogawa2021: slice iloc[0:,2+delta:10+delta] with
delta 9 under pctPlot, groupsN all ones. -/
def heatmap_Ogawa2021_profile : HeatProfile :=
  { hStart0 := 2, hEnd0 := 10, pctDelta := 9,
    groupsN := [1, 1, 1, 1, 1, 1, 1, 1],
    groupKeys := ["r", "u", "s", "m", "l", "m4", "onBC", "offBC"],
    groupsLabels := ["Rods", "UV", "S", "M", "L", "M4", "B$_{on}$", "B$_{off}$"],
    defaultPalette := pC_photoreceptor,
    cbarNoPct := "avg.", cbarPct := "%",
    cbarNormNoPct := "norm. " ++ "avg.", cbarNormPct := "norm. " ++ "%" }

/-- Constants of heatmap_Hoang2020: slice iloc[0:,2+delta:9+delta] with
delta 8 under pctPlot. -/
def heatmap_Hoang2020_profile : HeatProfile :=
  { hStart0 := 2, hEnd0 := 9, pctDelta := 8,
    groupsN := [1, 1, 1, 1, 1, 1, 1],
    groupKeys := ["r", "u", "s", "m", "m", "m4", "l"],
    groupsLabels := ["Rods", "UV", "S", "M", "M3", "M4", "L"],
    defaultPalette := pC_photoreceptor,
    cbarNoPct := "avg.", cbarPct := "%",
    cbarNormNoPct := "norm. " ++ "avg.", cbarNormPct := "norm. " ++ "%" }

/-- Constants of heatmap_Sun2018: slice iloc[0:,7:16] (nine columns) against
groupsN = [4,4]. -/
def heatmap_Sun2018_profile : HeatProfile :=
  { hStart0 := 7, hEnd0 := 16, pctDelta := 0,
    groupsN := [4, 4],
    groupKeys := ["r", "m4"],
    groupsLabels := ["Rods", "notRods"],
    defaultPalette := pC_photoreceptor,
    cbarNoPct := "cpm", cbarPct := "cpm",
    cbarNormNoPct := "norm. cpm", cbarNormPct := "norm. cpm" }

/-- Constants of heatmap_Nerli2022: slice iloc[0:,1:21]; base colorbar label
"Counts (norm.)" but the norm branch assigns the fixed string "norm. FPKM". -/
def heatmap_Nerli2022_profile : HeatProfile :=
  { hStart0 := 1, hEnd0 := 21, pctDelta := 0,
    groupsN := [5, 5, 5, 5],
    groupKeys := ["RPC", "PR", "HC_AC", "RGC"],
    groupsLabels := ["RPC", "Photo", "HC/AC", "RGC"],
    defaultPalette := pC_Nerli2022,
    cbarNoPct := "Counts (norm.)", cbarPct := "Counts (norm.)",
    cbarNormNoPct := "norm. FPKM", cbarNormPct := "norm. FPKM" }

/-- Constants of heatmap_Yoshimatsu2020: slice iloc[0:,1:9], groupsN [4,4]. -/
def heatmap_Yoshimatsu2020_profile : HeatProfile :=
  { hStart0 := 1, hEnd0 := 9, pctDelta := 0,
    groupsN := [4, 4],
    groupKeys := ["u2", "u"],
    groupsLabels := ["UV$_{non-sz}$", "UV$_{sz}$"],
    defaultPalette := pC_Yoshimatsu2020,
    cbarNoPct := "cpm", cbarPct := "cpm",
    cbarNormNoPct := "norm. cpm", cbarNormPct := "norm. cpm" }

/-- Default palette of heatmap_Hoang2020_Ret (its BC_adult entry differs from
the bar variant). -/
def pC_Hoang2020_Ret_heat : Palette :=
  [("RPC", "#DADADA"), ("PRPC", "#dfdac8"), ("Cones_larval", "#dcc360"), ("Cones_adult", "#ffd429"),
   ("Rods", "#7d7d7d"), ("HC", "#FC7715"), ("BC_larval", "#ccf2ff"), ("BC_adult", "#663d00"),
   ("AC_larval", "#3DF591"), ("ACgaba", "#3DF5C3"), ("ACgly", "#56F53D"), ("RGC_larval", "#F53D59"),
   ("RGC_adult", "#BB0622"), ("MGi", "#EA9D81"), ("MG1", "#A2644E"), ("MG2", "#7E4835"), ("MG3", "#613728")]

/-- Constants of heatmap_Hoang2020_Ret: slice iloc[0:,2+delta:19+delta] with
delta 19 under pctPlot, groupsN seventeen ones. -/
def heatmap_Hoang2020_Ret_profile : HeatProfile :=
  { hStart0 := 2, hEnd0 := 19, pctDelta := 19,
    groupsN := List.replicate 17 1,
    groupKeys := keys_Hoang2020_Ret,
    groupsLabels := labels_Hoang2020_Ret,
    defaultPalette := pC_Hoang2020_Ret_heat,
    cbarNoPct := "avg.", cbarPct := "%",
    cbarNormNoPct := "norm. " ++ "avg.", cbarNormPct := "norm. " ++ "%" }

/-- Constants of heatmap_Hoang2020_PhotoDev: slice iloc[0:,2+delta:9+delta]
with delta 8 under pctPlot. -/
def heatmap_Hoang2020_PhotoDev_profile : HeatProfile :=
  { hStart0 := 2, hEnd0 := 9, pctDelta := 8,
    groupsN := [1, 1, 1, 1, 1, 1, 1],
    groupKeys := ["RPC", "PRP", "Cle", "Clm", "Cll", "C", "R"],
    groupsLabels := ["RPC", "PRP", "Cone$_{larval-early}$", "Cone$_{larval-mid}$",
                     "Cone$_{larval-late}$", "Cone", "Rod"],
    defaultPalette := pC_Hoang2020_PhotoDev,
    cbarNoPct := "avg.", cbarPct := "%",
    cbarNormNoPct := "norm. " ++ "avg.", cbarNormPct := "norm. " ++ "%" }

/-- Constants of heatmap_Hoang2020_PhotoDev_withcontaminatedlarvalrods:
slice iloc[0:,2+delta:10+delta] with delta 9 under pctPlot. -/
def heatmap_Hoang2020_PhotoDev_withcontaminatedlarvalrods_profile : HeatProfile :=
  { hStart0 := 2, hEnd0 := 10, pctDelta := 9,
    groupsN := [1, 1, 1, 1, 1, 1, 1, 1],
    groupKeys := ["RPC", "PRP", "Cle", "Clm", "Cll", "C", "Rll", "R"],
    groupsLabels := ["RPC", "PRPC", "Cone$_{larval-early}$", "Cone$_{larval-mid}$",
                     "Cone$_{larval-late}$", "Cone", "Rod$_{larval-late}$", "Rod"],
    defaultPalette := pC_Hoang2020_contam,
    cbarNoPct := "avg.", cbarPct := "%",
    cbarNormNoPct := "norm. " ++ "avg.", cbarNormPct := "norm. " ++ "%" }

/-- Constants of heatmap_Xu2020_RetDev: slice iloc[0:,2+delta:82+delta] with
delta 81 under pctPlot, groupsN eighty ones. -/
def heatmap_Xu2020_RetDev_profile : HeatProfile :=
  { hStart0 := 2, hEnd0 := 82, pctDelta := 81,
    groupsN := List.replicate 80 1,
    groupKeys := keys_Xu2020_RetDev,
    groupsLabels := keys_Xu2020_RetDev,
    defaultPalette := pC_Xu2020_RetDev,
    cbarNoPct := "avg.", cbarPct := "%",
    cbarNormNoPct := "norm. " ++ "avg.", cbarNormPct := "norm. " ++ "%" }

/-- All ten heatmap wrapper profiles, same dataset order as barProfilesAll. -/
def heatProfilesAll : List HeatProfile :=
  [heatmap_profile, heatmap_Ogawa2021_profile, heatmap_Hoang2020_profile, heatmap_Sun2018_profile,
   heatmap_Nerli2022_profile, heatmap_Yoshimatsu2020_profile, heatmap_Hoang2020_Ret_profile,
   heatmap_Hoang2020_PhotoDev_profile, heatmap_Hoang2020_PhotoDev_withcontaminatedlarvalrods_profile,
   heatmap_Xu2020_RetDev_profile]

/-- The heatmap wrappers named after their source functions. -/
def heatmap (heatmapData : Table) (pC : Option Palette) (norm : Bool) :
    Except PlotError HeatSpec :=
  resolveHeatmap heatmap_profile heatmapData pC false norm

def heatmap_Ogawa2021 (heatmapData : Table) (pC : Option Palette) (pctPlot norm : Bool) :
    Except PlotError HeatSpec :=
  resolveHeatmap heatmap_Ogawa2021_profile heatmapData pC pctPlot norm

def heatmap_Sun2018 (heatmapData : Table) (pC : Option Palette) (norm : Bool) :
    Except PlotError HeatSpec :=
  resolveHeatmap heatmap_Sun2018_profile heatmapData pC false norm

def heatmap_Nerli2022 (heatmapData : Table) (pC : Option Palette) (norm : Bool) :
    Except PlotError HeatSpec :=
  resolveHeatmap heatmap_Nerli2022_profile heatmapData pC false norm

/-! Supporting lemmas. -/

theorem pySlice_length (l : List ℚ) (a b : ℕ) :
    (pySlice l a b).length = min b l.length - a := by
  simp [pySlice]

theorem buildColors_missing (p : Palette) :
    ∀ keys : List String, (∃ k ∈ keys, List.lookup k p = none) →
      ∃ k, buildColors p keys = Except.error (PlotError.missingKey k) := by
  intro keys
  induction keys with
  | nil => rintro ⟨k, hk, _⟩; cases hk
  | cons k ks ih =>
    rintro ⟨k0, hk0, hnone⟩
    rcases List.mem_cons.mp hk0 with rfl | hmem
    · exact ⟨k0, by simp [buildColors, hnone]⟩
    · cases hlk : List.lookup k p with
      | none => exact ⟨k, by simp [buildColors, hlk]⟩
      | some c =>
        obtain ⟨k1, hk1⟩ := ih ⟨k0, hmem, hnone⟩
        exact ⟨k1, by simp [buildColors, hlk, hk1]⟩

theorem effectivePalette_of_ne (p : Palette) (d : Palette) (h : p ≠ []) :
    effectivePalette (some p) d = p := by
  cases p with
  | nil => exact absurd rfl h
  | cons a l => rfl

theorem le_foldl_max_init (ys : List ℚ) :
    ∀ a b : ℚ, a ≤ b → a ≤ List.foldl max b ys := by
  induction ys with
  | nil => intro a b h; simpa using h
  | cons y ys ih => intro a b h; exact ih a (max b y) (le_trans h (le_max_left b y))

theorem mem_le_foldl_max (ys : List ℚ) :
    ∀ (b v : ℚ), v ∈ ys → v ≤ List.foldl max b ys := by
  induction ys with
  | nil => intro b v h; cases h
  | cons y ys ih =>
    intro b v h
    rcases List.mem_cons.mp h with rfl | hmem
    · exact le_foldl_max_init ys v (max b v) (le_max_right b v)
    · exact ih (max b y) v hmem

theorem le_rowMaxQ (l : List ℚ) (v : ℚ) (h : v ∈ l) : v ≤ rowMaxQ l := by
  cases l with
  | nil => cases h
  | cons x xs =>
    rcases List.mem_cons.mp h with rfl | hmem
    · exact le_foldl_max_init xs v v le_rfl
    · exact mem_le_foldl_max xs x v hmem

theorem rowMaxQ_pos (l : List ℚ) (h0 : ∀ v ∈ l, 0 ≤ v) (hx : ∃ v ∈ l, v ≠ 0) :
    0 < rowMaxQ l := by
  obtain ⟨v, hv, hne⟩ := hx
  exact lt_of_lt_of_le (lt_of_le_of_ne (h0 v hv) (Ne.symm hne)) (le_rowMaxQ l v hv)

theorem foldl_max_map_div (m : ℚ) (hm : 0 ≤ m) (xs : List ℚ) :
    ∀ x : ℚ, List.foldl max (x / m) (xs.map fun v => v / m) = (List.foldl max x xs) / m := by
  induction xs with
  | nil => intro x; rfl
  | cons y ys ih =>
    intro x
    simp only [List.map, List.foldl]
    rw [max_div_div_right hm, ih]

theorem rowMaxQ_normalizeRow (l : List ℚ) (h0 : ∀ v ∈ l, 0 ≤ v)
    (hx : ∃ v ∈ l, v ≠ 0) : rowMaxQ (normalizeRow l) = 1 := by
  have hm := rowMaxQ_pos l h0 hx
  cases l with
  | nil => obtain ⟨v, hv, _⟩ := hx; cases hv
  | cons x xs =>
    show rowMaxQ ((x :: xs).map fun v => v / rowMaxQ (x :: xs)) = 1
    simp only [List.map]
    show List.foldl max (x / rowMaxQ (x :: xs)) (xs.map fun v => v / rowMaxQ (x :: xs)) = 1
    rw [foldl_max_map_div _ hm.le]
    exact div_self (ne_of_gt hm)

theorem resolveBar_eq_ok (prof : BarProfile) (t : Table) (r : List ℚ)
    (rest : List (List ℚ)) (g : String) (pC : Option Palette) (pct : Bool)
    (cs : List String) (ht : t.rows = r :: rest)
    (hcs : buildColors (effectivePalette pC prof.defaultPalette) prof.colorKeys = Except.ok cs)
    (hlen : prof.positions.length =
      (pySlice r (prof.hStart0 + (if pct then prof.pctDelta else 0))
        (prof.hEnd0 + (if pct then prof.pctDelta else 0))).length) :
    resolveBar prof t g pC pct = Except.ok
      { positions := prof.positions,
        values := pySlice r (prof.hStart0 + (if pct then prof.pctDelta else 0))
          (prof.hEnd0 + (if pct then prof.pctDelta else 0)),
        colors := cs, xTicks := prof.xTicks, xTickLabels := prof.xTickLabels,
        yLabel := if pct then prof.yLabelPct else prof.yLabel0, title := g } := by
  unfold resolveBar
  rw [ht]
  simp only []
  rw [hcs]
  simp [hlen]

theorem resolveBar_missing (prof : BarProfile) (t : Table) (r : List ℚ)
    (rest : List (List ℚ)) (g : String) (p : Palette) (pct : Bool)
    (ht : t.rows = r :: rest) (hp : p ≠ [])
    (hk : ∃ k ∈ prof.colorKeys, List.lookup k p = none) :
    ∃ k, resolveBar prof t g (some p) pct = Except.error (PlotError.missingKey k) := by
  obtain ⟨k, herr⟩ := buildColors_missing p prof.colorKeys hk
  refine ⟨k, ?_⟩
  unfold resolveBar
  rw [ht]
  simp only []
  rw [effectivePalette_of_ne p prof.defaultPalette hp, herr]

theorem resolveBar_shape (prof : BarProfile) (t : Table) (r : List ℚ)
    (rest : List (List ℚ)) (g : String) (cs : List String)
    (ht : t.rows = r :: rest)
    (hcs : buildColors prof.defaultPalette prof.colorKeys = Except.ok cs)
    (hne : prof.positions.length ≠ (pySlice r prof.hStart0 prof.hEnd0).length) :
    resolveBar prof t g none false = Except.error PlotError.shapeMismatch := by
  unfold resolveBar
  rw [ht]
  simp only []
  rw [show effectivePalette none prof.defaultPalette = prof.defaultPalette from rfl]
  rw [show prof.hStart0 + (if false then prof.pctDelta else 0) = prof.hStart0 by simp,
      show prof.hEnd0 + (if false then prof.pctDelta else 0) = prof.hEnd0 by simp] at *
  rw [hcs]
  simp [hne]

theorem heatData_length (prof : HeatProfile) (t : Table) (pct norm : Bool) :
    (heatData prof t pct norm).length = t.rows.length := by
  unfold heatData
  cases norm <;> simp

theorem resolveHeatmap_missing (prof : HeatProfile) (t : Table) (p : Palette)
    (pct norm : Bool) (hp : p ≠ [])
    (hk : ∃ k ∈ prof.groupKeys, List.lookup k p = none) :
    ∃ k, resolveHeatmap prof t (some p) pct norm = Except.error (PlotError.missingKey k) := by
  obtain ⟨k, herr⟩ := buildColors_missing p prof.groupKeys hk
  refine ⟨k, ?_⟩
  unfold resolveHeatmap
  rw [effectivePalette_of_ne p prof.defaultPalette hp, herr]

theorem resolveHeatmap_empty (prof : HeatProfile) (t : Table) (pC : Option Palette)
    (pct norm : Bool) (gcs : List String) (ht : t.rows = [])
    (hcs : buildColors (effectivePalette pC prof.defaultPalette) prof.groupKeys = Except.ok gcs) :
    resolveHeatmap prof t pC pct norm = Except.ok
      { data := List.replicate 2 (List.replicate
          (min (prof.hEnd0 + heatDelta prof pct) t.nCols - (prof.hStart0 + heatDelta prof pct)) 1),
        nCols := min (prof.hEnd0 + heatDelta prof pct) t.nCols - (prof.hStart0 + heatDelta prof pct),
        rowLabels := ["not found", "not found"], groupsN := prof.groupsN,
        groupsColors := gcs, groupsLabels := prof.groupsLabels,
        cbarlabel := heatCbarLabel prof pct norm } := by
  unfold resolveHeatmap
  rw [hcs]
  simp only []
  rw [if_pos (by rw [heatData_length, ht]; rfl)]

theorem resolveBar_narrow_of (prof : BarProfile)
    (hpos : prof.positions.length = prof.hEnd0 - prof.hStart0)
    (hlt : prof.hStart0 < prof.hEnd0)
    (hok : (buildColors prof.defaultPalette prof.colorKeys).isOk = true)
    (t : Table) (r : List ℚ) (rest : List (List ℚ)) (g : String)
    (ht : t.rows = r :: rest) (hw : r.length < prof.hEnd0) :
    resolveBar prof t g none false = Except.error PlotError.shapeMismatch := by
  cases hbc : buildColors prof.defaultPalette prof.colorKeys with
  | error e => rw [hbc] at hok; exact Bool.noConfusion hok
  | ok cs =>
    exact resolveBar_shape prof t r rest g cs ht hbc (by rw [pySlice_length]; omega)

theorem resolveHeatmap_isOk_of (prof : HeatProfile) (t : Table) (pct norm : Bool)
    (hb : (buildColors prof.defaultPalette prof.groupKeys).isOk = true) :
    (resolveHeatmap prof t none pct norm).isOk = true := by
  cases hbc : buildColors prof.defaultPalette prof.groupKeys with
  | error e => rw [hbc] at hb; exact Bool.noConfusion hb
  | ok gcs =>
    unfold resolveHeatmap
    rw [show effectivePalette none prof.defaultPalette = prof.defaultPalette from rfl, hbc]
    simp only []
    by_cases h : (heatData prof t pct norm).length = 0
    · rw [if_pos h]; rfl
    · rw [if_neg h]; rfl

theorem resolveHeatmap_data (prof : HeatProfile) (t : Table) (pC : Option Palette)
    (pct norm : Bool) (spec : HeatSpec) (hne : t.rows ≠ [])
    (hok : resolveHeatmap prof t pC pct norm = Except.ok spec) :
    spec.data = heatData prof t pct norm := by
  unfold resolveHeatmap at hok
  cases hbc : buildColors (effectivePalette pC prof.defaultPalette) prof.groupKeys with
  | error e => rw [hbc] at hok; cases hok
  | ok gcs =>
    rw [hbc] at hok
    simp only [] at hok
    rw [if_neg (by rw [heatData_length]; simpa using List.length_eq_zero.not.mpr hne)] at hok
    cases hok
    rfl

/-! Claim theorems. -/

/-- Claim C1: the sum of the group member counts of every dataset wrapper was
claimed to equal the width of its column slice.  The audit below shows the
per-wrapper pairs (group-size sum, slice width): they agree for every dataset
except Sun2018, whose slice iloc[0:,7:16] is nine columns wide while its
groups cover only eight (bar colors r x4 ++ m4 x4; heatmap groupsN [4,4]).
The claim is right about the intent and the Sun2018 constants are an
off-by-one slip in the code. -/
theorem group_partition_audit :
    (barProfilesAll.map fun p => (p.colorKeys.length, p.hEnd0 - p.hStart0)) =
      [(30, 30), (8, 8), (7, 7), (8, 9), (20, 20), (8, 8), (17, 17), (7, 7), (8, 8), (80, 80)] ∧
    (heatProfilesAll.map fun p => (p.groupsN.sum, p.hEnd0 - p.hStart0)) =
      [(30, 30), (8, 8), (7, 7), (8, 9), (20, 20), (8, 8), (17, 17), (7, 7), (8, 8), (80, 80)] ∧
    plotBars_Sun2018_profile.colorKeys.length ≠
      plotBars_Sun2018_profile.hEnd0 - plotBars_Sun2018_profile.hStart0 ∧
    heatmap_Sun2018_profile.groupsN.sum ≠
      heatmap_Sun2018_profile.hEnd0 - heatmap_Sun2018_profile.hStart0 := by
  decide

/-- Claim C3: the derived colors sequence was claimed to always match the
sliced values and the bar positions in length, making the shape-mismatch
branch unreachable; the audit triples are (positions, colors, slice width)
per bar wrapper.  For plotBars_Sun2018 the slice iloc[0,7:16] yields nine
values against eight positions and eight colors, so the call on any
sufficiently wide row (here sixteen columns) ends in the shape-mismatch
fault instead of drawing. -/
theorem plotBars_Sun2018_shape_bug :
    (barProfilesAll.map fun p => (p.positions.length, p.colorKeys.length, p.hEnd0 - p.hStart0)) =
      [(30, 30, 30), (8, 8, 8), (7, 7, 7), (8, 8, 9), (20, 20, 20), (8, 8, 8), (17, 17, 17),
       (7, 7, 7), (8, 8, 8), (80, 80, 80)] ∧
    plotBars_Sun2018 (Table.mk 16 ["gene"] [List.replicate 16 0]) "gene" none =
      Except.error PlotError.shapeMismatch := by
  decide

/-- Claim C2 counterexample: a row narrower than the slice end was claimed to
make the call fail with an out-of-range index fault at slicing time.  On a
ten-column row, plotBars does not fault while slicing: the iloc slice clips
to three values (Python slice semantics), and the call instead fails at the
ax.bar step with the shape-mismatch error, because three values meet thirty
bar positions. -/
theorem plotBars_oob_claim_cex :
    plotBars (Table.mk 10 ["gene"] [List.replicate 10 0]) "gene" none =
      Except.error PlotError.shapeMismatch ∧
    plotBars (Table.mk 10 ["gene"] [List.replicate 10 0]) "gene" none ≠
      Except.error PlotError.rowIndexOOB ∧
    (pySlice (List.replicate 10 0) 7 37).length = 3 := by
  decide

/-- The nine bar wrappers whose positions count equals their slice width
(every bar wrapper except Sun2018, whose constants are off by one). -/
def barProfilesRegular : List BarProfile :=
  [plotBars_profile, plotBars_Ogawa2021_profile, plotBars_Hoang2020_profile,
   plotBars_Nerli2022_profile, plotBars_Yoshimatsu2020_profile, plotBars_Hoang2020_Ret_profile,
   plotBars_Hoang2020_PhotoDev_profile, plotBars_Hoang2020_PhotoDev_withcontaminatedlarvalrods_profile,
   plotBars_Xu2020_RetDev_profile]

/-- Claim C2 as amended: slicing a too-narrow row never faults (iloc slices
clip); for every bar wrapper except Sun2018, a first row with fewer columns
than the slice end yields fewer values than bar positions, so the call fails
with the shape-mismatch error at the ax.bar step, not with an out-of-range
fault; an out-of-range index fault occurs only when the table has no rows. -/
theorem plotBars_narrow_row_amended :
    ∀ prof ∈ barProfilesRegular, ∀ (t : Table) (r : List ℚ) (rest : List (List ℚ)) (g : String),
      t.rows = r :: rest → r.length < prof.hEnd0 →
      resolveBar prof t g none false = Except.error PlotError.shapeMismatch := by
  intro prof hmem t r rest g ht hw
  revert hw
  fin_cases hmem <;>
    exact fun hw => resolveBar_narrow_of _ (by decide) (by decide) (by decide) t r rest g ht hw

/-- Witness for the amended claim C2 at a concrete input: plotBars on a
one-row, ten-column table. -/
theorem plotBars_narrow_row_amended_witness :
    plotBars_profile ∈ barProfilesRegular ∧
    (List.replicate 10 (0 : ℚ)).length < plotBars_profile.hEnd0 ∧
    resolveBar plotBars_profile (Table.mk 10 ["gene"] [List.replicate 10 0]) "gene" none false =
      Except.error PlotError.shapeMismatch :=
  ⟨by simp [barProfilesRegular], by decide,
    plotBars_narrow_row_amended plotBars_profile (by simp [barProfilesRegular])
      (Table.mk 10 ["gene"] [List.replicate 10 0]) (List.replicate 10 0) [] "gene" rfl (by decide)⟩

/-- Claim C4 counterexample: with norm set, the colorbar label of every
heatmap wrapper was claimed to be the dataset's unit label prefixed with
"norm."; heatmap_Nerli2022 instead assigns the fixed string "norm. FPKM",
which is not its unit label "Counts (norm.)" with that prefix. -/
theorem heatmap_Nerli2022_norm_label_cex :
    (heatmap_Nerli2022 (Table.mk 21 [] []) none true).map HeatSpec.cbarlabel =
      Except.ok "norm. FPKM" ∧
    heatmap_Nerli2022_profile.cbarNoPct = "Counts (norm.)" ∧
    "norm. FPKM" ≠ "norm. " ++ "Counts (norm.)" := by
  decide

/-- Claim C4 as amended: with norm set, every heatmap wrapper except
Nerli2022 labels the colorbar with its unit label (the pctPlot-dependent one
where the wrapper has that flag) prefixed with "norm. "; heatmap_Nerli2022
instead produces the fixed label "norm. FPKM" although its unit label is
"Counts (norm.)". -/
theorem heatmap_norm_label_amended :
    heatCbarLabel heatmap_profile false true = "norm. " ++ heatCbarLabel heatmap_profile false false ∧
    (∀ pct, heatCbarLabel heatmap_Ogawa2021_profile pct true =
      "norm. " ++ heatCbarLabel heatmap_Ogawa2021_profile pct false) ∧
    (∀ pct, heatCbarLabel heatmap_Hoang2020_profile pct true =
      "norm. " ++ heatCbarLabel heatmap_Hoang2020_profile pct false) ∧
    heatCbarLabel heatmap_Sun2018_profile false true =
      "norm. " ++ heatCbarLabel heatmap_Sun2018_profile false false ∧
    heatCbarLabel heatmap_Yoshimatsu2020_profile false true =
      "norm. " ++ heatCbarLabel heatmap_Yoshimatsu2020_profile false false ∧
    (∀ pct, heatCbarLabel heatmap_Hoang2020_Ret_profile pct true =
      "norm. " ++ heatCbarLabel heatmap_Hoang2020_Ret_profile pct false) ∧
    (∀ pct, heatCbarLabel heatmap_Hoang2020_PhotoDev_profile pct true =
      "norm. " ++ heatCbarLabel heatmap_Hoang2020_PhotoDev_profile pct false) ∧
    (∀ pct, heatCbarLabel heatmap_Hoang2020_PhotoDev_withcontaminatedlarvalrods_profile pct true =
      "norm. " ++ heatCbarLabel heatmap_Hoang2020_PhotoDev_withcontaminatedlarvalrods_profile pct false) ∧
    (∀ pct, heatCbarLabel heatmap_Xu2020_RetDev_profile pct true =
      "norm. " ++ heatCbarLabel heatmap_Xu2020_RetDev_profile pct false) ∧
    heatCbarLabel heatmap_Nerli2022_profile false true = "norm. FPKM" ∧
    heatmap_Nerli2022_profile.cbarNoPct = "Counts (norm.)" := by
  refine ⟨rfl, ?_, ?_, rfl, rfl, ?_, ?_, ?_, ?_, rfl, rfl⟩ <;> intro pct <;> cases pct <;> rfl

/-- Per-bar colors of plotBars under the default palette, as buildColors
produces them. -/
def plotBars_default_colors : List String :=
  ["#747474", "#747474", "#747474", "#747474", "#747474", "#747474",
   "#B540B7", "#B540B7", "#B540B7", "#B540B7", "#B540B7",
   "#4669F2", "#4669F2", "#4669F2", "#4669F2", "#4669F2", "#4669F2",
   "#04CD22", "#04CD22", "#04CD22", "#04CD22", "#04CD22", "#04CD22", "#04CD22",
   "#CC2C2A", "#CC2C2A", "#CC2C2A", "#CC2C2A", "#CC2C2A", "#CC2C2A"]

/-- Claim C7: on any table whose first row has at least 37 columns, plotBars
succeeds and its resolved spec has tick positions [3.5, 10, 16.5, 24, 31.5],
tick labels Rods/UV/S/M/L, and the color of sliced column index 6 (the first
UV column) is the palette entry for key u. -/
theorem plotBars_rods_uv_spec :
    ∀ (t : Table) (r : List ℚ) (rest : List (List ℚ)) (g : String),
      t.rows = r :: rest → 37 ≤ r.length →
      ∃ sp, plotBars t g none = Except.ok sp ∧
        sp.xTicks = [3.5, 10, 16.5, 24, 31.5] ∧
        sp.xTickLabels = ["Rods", "UV", "S", "M", "L"] ∧
        sp.colors[6]? = List.lookup "u" plotBars_profile.defaultPalette ∧
        List.lookup "u" plotBars_profile.defaultPalette = some "#B540B7" := by
  intro t r rest g ht hw
  refine ⟨_, resolveBar_eq_ok plotBars_profile t r rest g none false
    plotBars_default_colors ht (by decide) ?_, rfl, rfl, rfl, rfl⟩
  rw [pySlice_length]
  rw [show plotBars_profile.positions.length = 30 from rfl,
      show plotBars_profile.hStart0 + (if false then plotBars_profile.pctDelta else 0) = 7 from rfl,
      show plotBars_profile.hEnd0 + (if false then plotBars_profile.pctDelta else 0) = 37 from rfl]
  omega

/-- Witness for claim C7 at a concrete input: a one-row table with 37
zero-valued columns. -/
theorem plotBars_rods_uv_spec_witness :
    37 ≤ (List.replicate 37 (0 : ℚ)).length ∧
    (∃ sp, plotBars (Table.mk 37 ["opn1sw"] [List.replicate 37 0]) "opn1sw" none = Except.ok sp ∧
      sp.xTicks = [3.5, 10, 16.5, 24, 31.5] ∧
      sp.xTickLabels = ["Rods", "UV", "S", "M", "L"] ∧
      sp.colors[6]? = List.lookup "u" plotBars_profile.defaultPalette ∧
      List.lookup "u" plotBars_profile.defaultPalette = some "#B540B7") :=
  ⟨by decide,
    plotBars_rods_uv_spec (Table.mk 37 ["opn1sw"] [List.replicate 37 0])
      (List.replicate 37 0) [] "opn1sw" rfl (by decide)⟩

/-- Per-bar colors of plotBars_Ogawa2021 under the default palette. -/
def plotBars_Ogawa2021_default_colors : List String :=
  ["#747474", "#B540B7", "#4669F2", "#04CD22", "#CC2C2A", "#cdcd04", "#ccf2ff", "#663d00"]

/-- Claim C8: on any table whose first row has at least 19 columns,
plotBars_Ogawa2021 with pctPlot reads columns 2+9 through 10+9 (exclusive)
while without the flag it reads columns 2 through 10 (exclusive), and the
two calls have the same bar positions, bar colors, tick positions and tick
labels. -/
theorem plotBars_Ogawa2021_pct_shift :
    ∀ (t : Table) (r : List ℚ) (rest : List (List ℚ)) (g : String),
      t.rows = r :: rest → 19 ≤ r.length →
      ∃ sp sr, plotBars_Ogawa2021 t g none true = Except.ok sp ∧
        plotBars_Ogawa2021 t g none false = Except.ok sr ∧
        sp.values = pySlice r (2 + 9) (10 + 9) ∧
        sr.values = pySlice r 2 10 ∧
        sp.positions = sr.positions ∧ sp.colors = sr.colors ∧
        sp.xTicks = sr.xTicks ∧ sp.xTickLabels = sr.xTickLabels := by
  intro t r rest g ht hw
  refine ⟨_, _,
    resolveBar_eq_ok plotBars_Ogawa2021_profile t r rest g none true
      plotBars_Ogawa2021_default_colors ht (by decide) ?_,
    resolveBar_eq_ok plotBars_Ogawa2021_profile t r rest g none false
      plotBars_Ogawa2021_default_colors ht (by decide) ?_,
    rfl, rfl, rfl, rfl, rfl, rfl⟩
  · rw [pySlice_length]
    rw [show plotBars_Ogawa2021_profile.positions.length = 8 from rfl,
        show plotBars_Ogawa2021_profile.hStart0 + (if true then plotBars_Ogawa2021_profile.pctDelta else 0) = 11 from rfl,
        show plotBars_Ogawa2021_profile.hEnd0 + (if true then plotBars_Ogawa2021_profile.pctDelta else 0) = 19 from rfl]
    omega
  · rw [pySlice_length]
    rw [show plotBars_Ogawa2021_profile.positions.length = 8 from rfl,
        show plotBars_Ogawa2021_profile.hStart0 + (if false then plotBars_Ogawa2021_profile.pctDelta else 0) = 2 from rfl,
        show plotBars_Ogawa2021_profile.hEnd0 + (if false then plotBars_Ogawa2021_profile.pctDelta else 0) = 10 from rfl]
    omega

/-- Witness for claim C8 at a concrete input: a one-row table with 19
columns holding 0, 1, ..., 18. -/
theorem plotBars_Ogawa2021_pct_shift_witness :
    19 ≤ ((List.range 19).map fun i => ((i : ℚ))).length ∧
    (∃ sp sr, plotBars_Ogawa2021
        (Table.mk 19 ["gene"] [(List.range 19).map fun i => ((i : ℚ))]) "gene" none true = Except.ok sp ∧
      plotBars_Ogawa2021
        (Table.mk 19 ["gene"] [(List.range 19).map fun i => ((i : ℚ))]) "gene" none false = Except.ok sr ∧
      sp.values = pySlice ((List.range 19).map fun i => ((i : ℚ))) (2 + 9) (10 + 9) ∧
      sr.values = pySlice ((List.range 19).map fun i => ((i : ℚ))) 2 10 ∧
      sp.positions = sr.positions ∧ sp.colors = sr.colors ∧
      sp.xTicks = sr.xTicks ∧ sp.xTickLabels = sr.xTickLabels) :=
  ⟨by decide,
    plotBars_Ogawa2021_pct_shift (Table.mk 19 ["gene"] [(List.range 19).map fun i => ((i : ℚ))])
      ((List.range 19).map fun i => ((i : ℚ))) [] "gene" rfl (by decide)⟩

/-- The bar wrappers whose color tables reference the palette key m4. -/
def m4BarProfiles : List BarProfile :=
  [plotBars_Ogawa2021_profile, plotBars_Hoang2020_profile, plotBars_Sun2018_profile]

/-- The heatmap wrappers whose group-color tables reference the palette key
m4. -/
def m4HeatProfiles : List HeatProfile :=
  [heatmap_Ogawa2021_profile, heatmap_Hoang2020_profile, heatmap_Sun2018_profile]

/-- Claim C9: for every wrapper whose color table references the key m4, a
caller-supplied non-empty palette without that key makes the call fail with
a missing-color-key error raised while the color sequence is being built; in
this model an error result carries no resolved spec, so no bar or image draw
is reached. -/
theorem m4_missing_palette_key :
    ∀ (p : Palette), p ≠ [] → List.lookup "m4" p = none →
      (∀ prof ∈ m4BarProfiles,
        ∀ (t : Table) (r : List ℚ) (rest : List (List ℚ)) (g : String) (pct : Bool),
          t.rows = r :: rest →
          ∃ k, resolveBar prof t g (some p) pct = Except.error (PlotError.missingKey k)) ∧
      (∀ prof ∈ m4HeatProfiles, ∀ (t : Table) (pct norm : Bool),
        ∃ k, resolveHeatmap prof t (some p) pct norm = Except.error (PlotError.missingKey k)) := by
  intro p hp hm4
  constructor
  · intro prof hmem t r rest g pct ht
    fin_cases hmem <;>
      exact resolveBar_missing _ t r rest g p pct ht hp ⟨"m4", by decide, hm4⟩
  · intro prof hmem t pct norm
    fin_cases hmem <;>
      exact resolveHeatmap_missing _ t p pct norm hp ⟨"m4", by decide, hm4⟩

/-- Witness for claim C9 at a concrete input: a palette holding only key r,
passed to plotBars_Ogawa2021 on a one-row table. -/
theorem m4_missing_palette_key_witness :
    ([("r", "#747474")] : Palette) ≠ [] ∧
    List.lookup "m4" ([("r", "#747474")] : Palette) = none ∧
    (∃ k, resolveBar plotBars_Ogawa2021_profile (Table.mk 10 ["gene"] [List.replicate 10 0])
      "gene" (some [("r", "#747474")]) false = Except.error (PlotError.missingKey k)) :=
  ⟨by decide, by decide,
    (m4_missing_palette_key [("r", "#747474")] (by decide) (by decide)).1
      plotBars_Ogawa2021_profile (by simp [m4BarProfiles])
      (Table.mk 10 ["gene"] [List.replicate 10 0]) (List.replicate 10 0) [] "gene" false rfl⟩

/-- Claim C5: with norm set, every resulting data row of a heatmap wrapper
has maximum exactly 1, provided the input rows are nonnegative expression
measurements and each sliced row holds at least one nonzero value. -/
theorem resolveHeatmap_norm_rowmax :
    ∀ prof ∈ heatProfilesAll,
      ∀ (t : Table) (pC : Option Palette) (pct : Bool) (spec : HeatSpec),
        t.rows ≠ [] →
        (∀ row ∈ t.rows, ∀ v ∈ pySlice row (prof.hStart0 + heatDelta prof pct)
          (prof.hEnd0 + heatDelta prof pct), 0 ≤ v) →
        (∀ row ∈ t.rows, ∃ v ∈ pySlice row (prof.hStart0 + heatDelta prof pct)
          (prof.hEnd0 + heatDelta prof pct), v ≠ 0) →
        resolveHeatmap prof t pC pct true = Except.ok spec →
        ∀ dr ∈ spec.data, rowMaxQ dr = 1 := by
  intro prof _ t pC pct spec hne h0 hx hok dr hdr
  rw [resolveHeatmap_data prof t pC pct true spec hne hok] at hdr
  unfold heatData at hdr
  rw [if_pos rfl] at hdr
  obtain ⟨row, hrow, rfl⟩ := List.mem_map.mp hdr
  exact rowMaxQ_normalizeRow _ (h0 row hrow) (hx row hrow)

/-- The resolved spec of heatmap_Yoshimatsu2020 with norm on a single
all-ones nine-column row, spelled out for the claim C5 witness below. -/
def yoshiNormSpec : HeatSpec :=
  { data := [List.replicate 8 (1 : ℚ)], nCols := 8, rowLabels := ["gene"],
    groupsN := [4, 4], groupsColors := ["#B789A7", "#B540B7"],
    groupsLabels := ["UV$_{non-sz}$", "UV$_{sz}$"],
    cbarlabel := "norm. cpm" }

/-- Witness for claim C5 at a concrete input: heatmap_Yoshimatsu2020 with
norm on a single all-ones row (nine columns, slice 1:9). -/
theorem resolveHeatmap_norm_rowmax_witness :
    (Table.mk 9 ["gene"] [List.replicate 9 (1 : ℚ)]).rows ≠ [] ∧
    resolveHeatmap heatmap_Yoshimatsu2020_profile
      (Table.mk 9 ["gene"] [List.replicate 9 (1 : ℚ)]) none false true = Except.ok yoshiNormSpec ∧
    (∀ dr ∈ yoshiNormSpec.data, rowMaxQ dr = 1) := by
  have hnorm : normalizeRow (pySlice [(1 : ℚ), 1, 1, 1, 1, 1, 1, 1, 1] 1 9) =
      [(1 : ℚ), 1, 1, 1, 1, 1, 1, 1] := by
    norm_num [pySlice, normalizeRow, rowMaxQ]
  have hok : resolveHeatmap heatmap_Yoshimatsu2020_profile
      (Table.mk 9 ["gene"] [List.replicate 9 (1 : ℚ)]) none false true = Except.ok yoshiNormSpec := by
    unfold resolveHeatmap
    rw [show buildColors (effectivePalette none heatmap_Yoshimatsu2020_profile.defaultPalette)
        heatmap_Yoshimatsu2020_profile.groupKeys = Except.ok ["#B789A7", "#B540B7"] from rfl]
    simp only []
    rw [if_neg (by rw [heatData_length]; simp)]
    simp [heatData, heatDelta, yoshiNormSpec, heatCbarLabel, hnorm,
      heatmap_Yoshimatsu2020_profile, List.replicate]
  exact ⟨by simp, hok,
    resolveHeatmap_norm_rowmax heatmap_Yoshimatsu2020_profile (by simp [heatProfilesAll])
      (Table.mk 9 ["gene"] [List.replicate 9 (1 : ℚ)]) none false yoshiNormSpec
      (by simp) (by decide) (by decide) hok⟩

/-- Claim C6: a heatmap call on a table with no rows (and the dataset's full
column range available) draws the placeholder: a 2-row block of ones as wide
as the dataset's column count, with both row labels "not found"; this is a
fallback, not an error, and with the default palette the call completes. -/
theorem heatmap_empty_fallback :
    ∀ prof ∈ heatProfilesAll,
      ∀ (t : Table) (pC : Option Palette) (pct norm : Bool) (spec : HeatSpec),
        t.rows = [] →
        prof.hEnd0 + heatDelta prof pct ≤ t.nCols →
        resolveHeatmap prof t pC pct norm = Except.ok spec →
        spec.data = List.replicate 2 (List.replicate (prof.hEnd0 - prof.hStart0) 1) ∧
        spec.rowLabels = ["not found", "not found"] ∧
        spec.nCols = prof.hEnd0 - prof.hStart0 ∧
        (resolveHeatmap prof t none pct norm).isOk = true := by
  intro prof hmem t pC pct norm spec ht hle hok
  have hwidth : min (prof.hEnd0 + heatDelta prof pct) t.nCols -
      (prof.hStart0 + heatDelta prof pct) = prof.hEnd0 - prof.hStart0 := by omega
  have hdflt : (buildColors prof.defaultPalette prof.groupKeys).isOk = true := by
    fin_cases hmem <;> decide
  refine ⟨?_, ?_, ?_, resolveHeatmap_isOk_of prof t pct norm hdflt⟩ <;>
  · cases hbc : buildColors (effectivePalette pC prof.defaultPalette) prof.groupKeys with
    | error e => rw [resolveHeatmap, hbc] at hok; cases hok
    | ok gcs =>
      rw [resolveHeatmap_empty prof t pC pct norm gcs ht hbc] at hok
      cases hok
      simp [hwidth]

/-- The resolved spec of heatmap_Yoshimatsu2020 on an empty nine-column
table, spelled out for the claim C6 witness below. -/
def yoshiEmptySpec : HeatSpec :=
  { data := List.replicate 2 (List.replicate 8 (1 : ℚ)), nCols := 8,
    rowLabels := ["not found", "not found"], groupsN := [4, 4],
    groupsColors := ["#B789A7", "#B540B7"],
    groupsLabels := ["UV$_{non-sz}$", "UV$_{sz}$"],
    cbarlabel := "cpm" }

/-- Witness for claim C6 at a concrete input: heatmap_Yoshimatsu2020 on an
empty nine-column table. -/
theorem heatmap_empty_fallback_witness :
    (Table.mk 9 [] []).rows = [] ∧
    heatmap_Yoshimatsu2020_profile.hEnd0 +
      heatDelta heatmap_Yoshimatsu2020_profile false ≤ (Table.mk 9 [] []).nCols ∧
    resolveHeatmap heatmap_Yoshimatsu2020_profile (Table.mk 9 [] []) none false false =
      Except.ok yoshiEmptySpec ∧
    (yoshiEmptySpec.data = List.replicate 2 (List.replicate
        (heatmap_Yoshimatsu2020_profile.hEnd0 - heatmap_Yoshimatsu2020_profile.hStart0) 1) ∧
     yoshiEmptySpec.rowLabels = ["not found", "not found"] ∧
     yoshiEmptySpec.nCols =
       heatmap_Yoshimatsu2020_profile.hEnd0 - heatmap_Yoshimatsu2020_profile.hStart0 ∧
     (resolveHeatmap heatmap_Yoshimatsu2020_profile (Table.mk 9 [] []) none false false).isOk = true) :=
  ⟨rfl, by decide, by decide,
    heatmap_empty_fallback heatmap_Yoshimatsu2020_profile (by simp [heatProfilesAll])
      (Table.mk 9 [] []) none false false yoshiEmptySpec rfl (by decide) (by decide)⟩

/-- Claim C10: passing an empty palette dictionary behaves exactly like
passing no palette at all, for every bar and heatmap wrapper profile: the
truthiness test makes both fall back to the built-in default palette, and
the default palettes are complete for their wrappers, so no missing-key
error arises. -/
theorem empty_palette_default :
    (∀ (prof : BarProfile) (t : Table) (g : String) (pct : Bool),
      resolveBar prof t g (some []) pct = resolveBar prof t g none pct) ∧
    (∀ (prof : HeatProfile) (t : Table) (pct norm : Bool),
      resolveHeatmap prof t (some []) pct norm = resolveHeatmap prof t none pct norm) ∧
    (barProfilesAll.all fun p => (buildColors p.defaultPalette p.colorKeys).isOk) = true ∧
    (heatProfilesAll.all fun p => (buildColors p.defaultPalette p.groupKeys).isOk) = true :=
  ⟨fun _ _ _ _ => rfl, fun _ _ _ _ => rfl, by decide, by decide⟩
